import Mathlib

/-!
Verification development for the F-launcher process supervisor
(`src/launcher.py`).  The definitions below are a shallow embedding of the
supervisor core: the log sink (a `collections.deque` with `maxlen=2000`),
output-line severity classification (`read_output`), the command builder
(`build_command`), and the lifecycle operations (`start_fuxkcomfy`,
`stop_fuxkcomfy`, `monitor_health`).  Effects on the launcher object are
modelled by explicit state passing over `LState`; OS-level outcomes
(spawn success, liveness checks, kill failures) are oracle parameters.
-/

set_option linter.unusedVariables false

namespace FLauncher

/-- Log severity, the `level` strings of `launcher.py` (`"info"`, `"success"`,
`"warning"`, `"error"`). -/
inductive Level where
  | info
  | success
  | warning
  | error
deriving DecidableEq, Repr

/-- The string the source stores in `LogEntry.level`. -/
def Level.str : Level → String
  | .info => "info"
  | .success => "success"
  | .warning => "warning"
  | .error => "error"

/-- Model of `LogEntry` in `launcher.py` (timestamps are wall-clock side data and are
not modelled; ordering in the sink is positional). -/
structure LogEntry where
  message : String
  level : Level
deriving DecidableEq, Repr

/-- Python substring containment `pat in s`. -/
def strContains (s pat : String) : Bool :=
  decide (pat.toList <:+: s.toList)

/-- Append on `collections.deque(maxlen=cap)`: the new element goes to the back
and the front is dropped down to capacity.  Kept irreducible so that goals
about it are handled by the rewrite lemmas below rather than by unfolding. -/
@[irreducible]
def dequeAppend (cap : Nat) (xs : List LogEntry) (x : LogEntry) : List LogEntry :=
  let ys := xs ++ [x]
  ys.drop (ys.length - cap)

/-- The capacity of `self.logs = deque(maxlen=2000)`. -/
def logCapacity : Nat := 2000

/-- Launcher state: the fields of `FuxkComfyLauncher` (and
`SystemMonitor.process_pid`) that the supervisor operations read and write.
`process` is the pid held by the stored `subprocess.Popen` handle
(`none` when `self.process is None`). -/
structure LState where
  process : Option Nat
  is_running : Bool
  monitor_pid : Option Nat
  restart_attempts : Nat
  last_crash_time : Option Nat
  start_time : Option Nat
  logs : List LogEntry
deriving DecidableEq, Repr

/-- The freshly constructed launcher (`FuxkComfyLauncher.__init__`). -/
def initState : LState :=
  { process := none
    is_running := false
    monitor_pid := none
    restart_attempts := 0
    last_crash_time := none
    start_time := none
    logs := [] }

/-- Source `log_message`: append a classified entry to the bounded deque. -/
def log_message (s : LState) (message : String) (level : Level) : LState :=
  { s with logs := dequeAppend logCapacity s.logs ⟨message, level⟩ }

/-- Source `clear_logs`: empty the deque, then log a synthetic entry. -/
def clear_logs (s : LState) : LState :=
  log_message { s with logs := [] } "Logs cleared" .info

/-- Python str.lower() as a structural map over the character list (the
library String.toLower is the same map, written as a position loop). -/
def pyLower (s : String) : String := String.mk (s.data.map Char.toLower)

/-- The filter predicate of `get_logs`: keep an entry unless the level filter
(not `"all"`) mismatches or the (non-empty) search string is not contained
case-insensitively in the message. -/
def logPred (level_filter search : String) (log : LogEntry) : Bool :=
  (level_filter == "all" || log.level.str == level_filter) &&
  (search == "" || strContains (pyLower log.message) (pyLower search))

/-- Python list slice `xs[k:]` (negative `k` counts from the back). -/
def pySliceFrom (xs : List LogEntry) (k : Int) : List LogEntry :=
  if 0 ≤ k then xs.drop k.toNat
  else xs.drop (xs.length - (-k).toNat)

/-- Source `get_logs(level_filter, search, limit)`: filter the sink, then return
`filtered_logs[-limit:]`. -/
def get_logs (level_filter search : String) (limit : Int)
    (logs : List LogEntry) : List LogEntry :=
  let filtered_logs := logs.filter (logPred level_filter search)
  pySliceFrom filtered_logs (-limit)

/-- The severity classification of `read_output`: case-insensitive keyword
containment, first matching rule wins, checked in the source order. -/
def classify_line (line : String) : Level :=
  let line_lower := pyLower line
  if strContains line_lower "error" || strContains line_lower "exception"
      || strContains line_lower "failed" then .error
  else if strContains line_lower "warning" || strContains line_lower "warn" then .warning
  else if strContains line_lower "success" || strContains line_lower "ready"
      || strContains line_lower "started" then .success
  else .info

/-- The first keyword group of the classifier: any of error, exception,
failed (case-insensitively) gives error severity. -/
def errKw (line : String) : Bool :=
  strContains (pyLower line) "error" || strContains (pyLower line) "exception"
    || strContains (pyLower line) "failed"

/-- The second keyword group: warning or warn gives warning severity. -/
def warnKw (line : String) : Bool :=
  strContains (pyLower line) "warning" || strContains (pyLower line) "warn"

/-- The third keyword group: success, ready or started gives success
severity. -/
def succKw (line : String) : Bool :=
  strContains (pyLower line) "success" || strContains (pyLower line) "ready"
    || strContains (pyLower line) "started"

/-- One iteration of the read loop of `read_output`: a non-empty raw line is
stripped, classified, and logged. -/
def read_output_line (s : LState) (line : String) : LState :=
  if line ≠ "" then
    let stripped := line.trim
    log_message s stripped (classify_line stripped)
  else s

/-- The end-of-stream tail of `read_output` (source lines 582-591): after
`self.process.wait()` the running flag is dropped and the monitor pid
cleared, then a terminal entry is logged — success severity on exit code 0,
error severity plus a crash timestamp otherwise. -/
def read_output_exit (exit_code : Int) (now : Nat) (s : LState) : LState :=
  let s1 : LState := { s with is_running := false, monitor_pid := none }
  if exit_code = 0 then
    log_message s1 ("Process exited normally (code: " ++ toString exit_code ++ ")") .success
  else
    let s2 := log_message s1 ("Process exited with error code: " ++ toString exit_code) .error
    { s2 with last_crash_time := some now }

/-- Source `read_output`: consume the stream line by line, then handle process exit.
`lines` is the sequence the child produced, `exit_code` its exit status. -/
def read_output (lines : List String) (exit_code : Int) (now : Nat)
    (s : LState) : LState :=
  read_output_exit exit_code now (lines.foldl read_output_line s)

/-- The launcher configuration: the typed keys of
`ConfigManager.default_config`.  `load` merges the persisted document over
the defaults, so every key is always present; `get_config_value(key, d)` is
plain field access on this structure. -/
structure Config where
  port : String
  listen : String
  auto_launch : Bool
  gpu_opt : Bool
  cpu_mode : Bool
  lowvram : Bool
  highvram : Bool
  normalvram : Bool
  novram : Bool
  fp16_vae : Bool
  fp32_vae : Bool
  bf16_unet : Bool
  fp16_unet : Bool
  fp8_e4m3fn_unet : Bool
  fp8_e5m2_unet : Bool
  disable_smart_memory : Bool
  deterministic : Bool
  dont_upcast_attention : Bool
  force_upcast_attention : Bool
  disable_xformers : Bool
  use_pytorch_cross_attention : Bool
  use_split_cross_attention : Bool
  use_quad_cross_attention : Bool
  use_sage_attention : Bool
  use_flash_attention : Bool
  directml : Bool
  gpu_only : Bool
  reserve_vram : String
  cpu_vae : Bool
  async_offload : Bool
  disable_mmap : Bool
  force_channels_last : Bool
  preview_method : String
  preview_size : String
  extra_args : String
  python_executable : String
  language : String
  theme : String
  auto_restart : Bool
  max_restart_attempts : Nat
  log_level : String
deriving Repr

/-- The defaults of `ConfigManager.default_config`. -/
def default_config : Config :=
  { port := "8188"
    listen := "0.0.0.0"
    auto_launch := true
    gpu_opt := true
    cpu_mode := false
    lowvram := false
    highvram := false
    normalvram := false
    novram := false
    fp16_vae := false
    fp32_vae := false
    bf16_unet := false
    fp16_unet := false
    fp8_e4m3fn_unet := false
    fp8_e5m2_unet := false
    disable_smart_memory := false
    deterministic := false
    dont_upcast_attention := false
    force_upcast_attention := false
    disable_xformers := false
    use_pytorch_cross_attention := false
    use_split_cross_attention := false
    use_quad_cross_attention := false
    use_sage_attention := false
    use_flash_attention := false
    directml := false
    gpu_only := false
    reserve_vram := ""
    cpu_vae := false
    async_offload := false
    disable_mmap := false
    force_channels_last := false
    preview_method := "auto"
    preview_size := ""
    extra_args := ""
    python_executable := ""
    language := "en"
    theme := "dark"
    auto_restart := false
    max_restart_attempts := 3
    log_level := "all" }

/-- The interpreter prefix chosen at the top of `build_command`, together with
the log entry the source emits there (`"Using custom Python: ..."` when a
configured interpreter path exists on disk, else `"Using system Python: ..."`
with `sys.executable`).  `sysExe` models `sys.executable` and `isFile` models
`os.path.isfile`. -/
def interpCmd (sysExe : String) (isFile : String → Bool) (cfg : Config) :
    List String × LogEntry :=
  if cfg.python_executable != "" && isFile cfg.python_executable then
    ([cfg.python_executable, "-s", "main.py"],
      ⟨"Using custom Python: " ++ cfg.python_executable, .info⟩)
  else
    ([sysExe, "-s", "main.py"],
      ⟨"Using system Python: " ++ sysExe, .info⟩)

/-- The boolean feature flags of `build_command` as (config value, token)
pairs, in the source append order; the inverted `gpu_opt` contributes its
negation (`--disable-gpu-optimization` is appended when the option is false).
`use_pytorch_cross_attention` has no entry: the source never consults it. -/
def flagPairs (cfg : Config) : List (Bool × String) :=
  [(cfg.auto_launch, "--auto-launch"),
   (cfg.cpu_mode, "--cpu"),
   (!cfg.gpu_opt, "--disable-gpu-optimization"),
   (cfg.lowvram, "--lowvram"),
   (cfg.highvram, "--highvram"),
   (cfg.normalvram, "--normalvram"),
   (cfg.novram, "--novram"),
   (cfg.fp16_vae, "--fp16-vae"),
   (cfg.fp32_vae, "--fp32-vae"),
   (cfg.bf16_unet, "--bf16-unet"),
   (cfg.fp16_unet, "--fp16-unet"),
   (cfg.fp8_e4m3fn_unet, "--fp8_e4m3fn-unet"),
   (cfg.fp8_e5m2_unet, "--fp8_e5m2-unet"),
   (cfg.disable_smart_memory, "--disable-smart-memory"),
   (cfg.deterministic, "--deterministic"),
   (cfg.dont_upcast_attention, "--dont-upcast-attention"),
   (cfg.force_upcast_attention, "--force-upcast-attention"),
   (cfg.disable_xformers, "--disable-xformers"),
   (cfg.use_split_cross_attention, "--use-split-cross-attention"),
   (cfg.use_quad_cross_attention, "--use-quad-cross-attention"),
   (cfg.use_sage_attention, "--use-sage-attention"),
   (cfg.use_flash_attention, "--use-flash-attention"),
   (cfg.directml, "--directml"),
   (cfg.gpu_only, "--gpu-only"),
   (cfg.cpu_vae, "--cpu-vae"),
   (cfg.async_offload, "--async-offload"),
   (cfg.disable_mmap, "--disable-mmap"),
   (cfg.force_channels_last, "--force-channels-last")]

/-- One conditional append of `build_command`: the token when the guard
holds, else nothing. -/
def flagTok (b : Bool) (t : String) : List String :=
  if b then [t] else []

/-- The block of boolean feature flags of `build_command` (source lines
288-343): for each (value, token) pair in source order, append the token
exactly when the value is true. -/
def boolSection (cfg : Config) : List String :=
  ((flagPairs cfg).map (fun p => flagTok p.1 p.2)).flatten

/-- Python `str.split()` with no argument: split on whitespace runs,
discarding empty pieces. -/
def splitWs (s : String) : List String :=
  (s.split Char.isWhitespace).filter (fun piece => piece != "")

/-- The trailing value-bearing options of `build_command`: reserve-vram,
preview method (skipped when `"auto"`), preview size, and the whitespace-split
free-form extra arguments. -/
def valueSection (cfg : Config) : List String :=
  (if cfg.reserve_vram != "" then ["--reserve-vram", cfg.reserve_vram] else []) ++
  (if cfg.preview_method != "" && cfg.preview_method != "auto" then
    ["--preview-method", cfg.preview_method] else []) ++
  (if cfg.preview_size != "" then ["--preview-size", cfg.preview_size] else []) ++
  (if cfg.extra_args != "" then splitWs cfg.extra_args else [])

/-- The argument vector `build_command` returns: interpreter prefix, the fixed
platform flag, port and listen options, the boolean flag block, then the
value-bearing options, in the source append order. -/
def build_command (sysExe : String) (isFile : String → Bool) (cfg : Config) :
    List String :=
  (interpCmd sysExe isFile cfg).1 ++
  ["--windows-standalone-build"] ++
  ["--port", cfg.port] ++
  ["--listen", cfg.listen] ++
  boolSection cfg ++
  valueSection cfg

/-- Every token of `build_command` that does not come from the boolean flag
block: the interpreter prefix, platform flag, port/listen, and the
value-bearing tail. -/
def nonFlagTokens (sysExe : String) (isFile : String → Bool) (cfg : Config) :
    List String :=
  (interpCmd sysExe isFile cfg).1 ++
  ["--windows-standalone-build"] ++
  ["--port", cfg.port] ++
  ["--listen", cfg.listen] ++
  valueSection cfg

/-- Source `build_command` as it acts on the launcher object: besides returning the
vector it appends the interpreter log entry to the sink (`self.log_message`
is called inside `build_command`). -/
def build_command_state (sysExe : String) (isFile : String → Bool)
    (cfg : Config) (s : LState) : LState × List String :=
  let entry := (interpCmd sysExe isFile cfg).2
  ({ s with logs := dequeAppend logCapacity s.logs entry },
    build_command sysExe isFile cfg)

/-- The JSON body the lifecycle routes return: a success boolean, a
human-readable message, and (for a successful start) the new pid. -/
structure ApiResult where
  success : Bool
  message : String
  pid : Option Nat
deriving DecidableEq, Repr

/-- Append a batch of log entries in order. -/
def appendLogs (s : LState) (entries : List LogEntry) : LState :=
  { s with logs := entries.foldl (dequeAppend logCapacity) s.logs }

/-- Source `start_fuxkcomfy`: reject when the running flag is set; otherwise log the
resolved command line, spawn, and on success store the handle and pid, set
the running flag and start time, and reset the restart-attempt counter.
`spawn` is the outcome of `subprocess.Popen` (`Except.error` carries the
exception text); `now` models `time.time()`.  The history append is owned by
the persistence collaborator and is not part of the supervisor state. -/
def start_fuxkcomfy (sysExe : String) (isFile : String → Bool) (cfg : Config)
    (spawn : Except String Nat) (now : Nat) (s : LState) : LState × ApiResult :=
  if s.is_running then
    (s, ⟨false, "Process already running", none⟩)
  else
    let s1 := (build_command_state sysExe isFile cfg s).1
    let cmd := (build_command_state sysExe isFile cfg s).2
    let s2 := log_message s1 ("Starting: " ++ String.intercalate " " cmd) .info
    match spawn with
    | .error e =>
      (log_message s2 ("Failed to start process: " ++ e) .error,
        ⟨false, "Start failed: " ++ e, none⟩)
    | .ok pid =>
      let s3 : LState :=
        { s2 with
            process := some pid
            is_running := true
            start_time := some now
            monitor_pid := some pid
            restart_attempts := 0 }
      (log_message s3 ("Process started successfully (PID: " ++ toString pid ++ ")") .success,
        ⟨true, "Process started successfully", some pid⟩)

/-- The OS-level outcomes `stop_fuxkcomfy` depends on.  `osProcRunning` is
the reconciliation probe `psutil.Process(pid).is_running()` (`none` models
`NoSuchProcess`).  The platform-specific kill block (taskkill on Windows,
recursive psutil terminate/kill elsewhere) mutates no supervisor state: it
only emits log entries, modelled by `killLogs`, and either completes or
raises, modelled by `killOutcome` (`some e` carries the exception text, which
then also triggers the best-effort direct `self.process.kill()` fallback). -/
structure StopEnv where
  osProcRunning : Option Bool
  killLogs : List LogEntry
  killOutcome : Option String
deriving DecidableEq, Repr

/-- The tail of `stop_fuxkcomfy` from the kill attempt onward (source lines
440-555): run the platform kill block; on success or on exception the
running flag, the monitor pid and the start time are cleared — but the
stored `Popen` handle is not. -/
def stop_kill (env : StopEnv) (pid : Nat) (s : LState) : LState × ApiResult :=
  let s1 := log_message (log_message s "Stopping process..." .warning)
    ("Process PID: " ++ toString pid) .info
  let s2 := appendLogs s1 env.killLogs
  match env.killOutcome with
  | none =>
    ({ s2 with is_running := false, monitor_pid := none, start_time := none },
      ⟨true, "Process stopped", none⟩)
  | some e =>
    let s3 := log_message (log_message s2 ("Error stopping process: " ++ e) .error)
      "Attempting final cleanup with psutil..." .warning
    ({ s3 with is_running := false, monitor_pid := none, start_time := none },
      ⟨false, "Stop failed: " ++ e, none⟩)

/-- Source `stop_fuxkcomfy(force)`: resolve the target pid from the live handle or
from a remembered orphan pid; with a handle but a stale `is_running=False`
flag, reconcile against the OS before concluding "not running"; then run the
kill sequence.  `force` only selects the kill severity inside the abstracted
OS block. -/
def stop_fuxkcomfy ( force : Bool) (env : StopEnv) (s : LState) :
    LState × ApiResult :=
  match s.process with
  | none =>
    match s.monitor_pid with
    | none => (s, ⟨false, "Process not running", none⟩)
    | some pid =>
      let s1 := log_message s
        ("Found orphaned PID " ++ toString pid ++ ", attempting cleanup...") .warning
      stop_kill env pid s1
  | some pid =>
    if !s.is_running then
      let s1 := log_message s
        "Process object exists but is_running=False, checking actual status..." .warning
      match env.osProcRunning with
      | some true =>
        let s2 := log_message s1
          ("Process " ++ toString pid ++ " is actually running, correcting state...") .info
        stop_kill env pid { s2 with is_running := true }
      | some false =>
        let s2 := log_message s1 "Process confirmed not running" .info
        ({ s2 with is_running := false, process := none, monitor_pid := none },
          ⟨false, "Process not running", none⟩)
      | none =>
        let s2 := log_message s1 "Process confirmed not running" .info
        ({ s2 with is_running := false, process := none, monitor_pid := none },
          ⟨false, "Process not running", none⟩)
    else stop_kill env pid s

/-- The crash-handling body of `monitor_health` (source lines 599-610),
reached when the poll detects that the child has exited: with auto-restart
enabled and the counter below the configured maximum, increment the counter,
log the attempt, and call `start_fuxkcomfy` again; with the counter at the
maximum, log the giving-up entry and force the running flag false; with
auto-restart disabled, do nothing (the loop just ends). -/
def monitor_detect (sysExe : String) (isFile : String → Bool) (cfg : Config)
    (spawn : Except String Nat) (now : Nat) (s : LState) : LState :=
  if cfg.auto_restart then
    if s.restart_attempts < cfg.max_restart_attempts then
      let s1 : LState := { s with restart_attempts := s.restart_attempts + 1 }
      let s2 := log_message s1
        ("Auto-restart attempt " ++ toString s1.restart_attempts ++ "/"
          ++ toString cfg.max_restart_attempts) .warning
      (start_fuxkcomfy sysExe isFile cfg spawn now s2).1
    else
      let s1 := log_message s
        ("Max restart attempts (" ++ toString cfg.max_restart_attempts
          ++ ") reached, giving up") .error
      { s1 with is_running := false }
  else s

/-- One full unexpected-exit round: the child dies with `exit_code`, the
output reader runs its end-of-stream handling, then the health monitor wakes
and runs its crash-handling body. -/
def crash_cycle (sysExe : String) (isFile : String → Bool) (cfg : Config)
    (exit_code : Int) (spawn : Except String Nat) (now : Nat) (s : LState) :
    LState :=
  monitor_detect sysExe isFile cfg spawn now (read_output_exit exit_code now s)

/-- Supervisor-level events: an API start call, an unexpected child exit
followed by the monitor's crash handling, and an API stop call. -/
inductive Ev where
  | startEv (spawn : Except String Nat) (now : Nat)
  | crashEv (exit_code : Int) (spawn : Except String Nat) (now : Nat)
  | stopEv ( force : Bool) (env : StopEnv)

/-- The state transition of one event. -/
def step (sysExe : String) (isFile : String → Bool) (cfg : Config) :
    LState → Ev → LState
  | s, .startEv spawn now => (start_fuxkcomfy sysExe isFile cfg spawn now s).1
  | s, .crashEv exit_code spawn now => crash_cycle sysExe isFile cfg exit_code spawn now s
  | s, .stopEv force env => (stop_fuxkcomfy force env s).1

/-- Run a sequence of events from a state. -/
def run (sysExe : String) (isFile : String → Bool) (cfg : Config)
    (s : LState) (evs : List Ev) : LState :=
  evs.foldl (step sysExe isFile cfg) s

/-- The fields of the `/api/status` response produced from supervisor state:
`running` is the flag, `pid` is `launcher.process.pid if launcher.process
else None` — read from the stored handle, not from the monitor pid. -/
structure ApiStatus where
  running : Bool
  restart_attempts : Nat
  pid : Option Nat
deriving DecidableEq, Repr

/-- The `/api/status` route. -/
def status (s : LState) : ApiStatus :=
  ⟨s.is_running, s.restart_attempts, s.process⟩

/-- An interpreter-path probe on which no configured path exists (so
`build_command` always picks the system interpreter). -/
def noFile : String → Bool := fun _ => false

/-- The default configuration with auto-restart switched on (its
`max_restart_attempts` stays at the default 3). -/
def cfgAutoRestart : Config := { default_config with auto_restart := true }

/-- The default configuration with the DirectML flag switched on. -/
def cfgDirectml : Config := { default_config with directml := true }

/-- The default configuration with the (ignored) PyTorch cross-attention
backend selected. -/
def cfgPytorchAttn : Config :=
  { default_config with use_pytorch_cross_attention := true }

/-- A launcher state with a live child: handle and monitor pid 42, running
flag set. -/
def runningState : LState :=
  { process := some 42
    is_running := true
    monitor_pid := some 42
    restart_attempts := 0
    last_crash_time := none
    start_time := some 5
    logs := [] }

/-- A launcher state just after the output reader handled an unexpected
exit: handle still stored, flags down, counter zero. -/
def crashedState : LState :=
  { process := some 100
    is_running := false
    monitor_pid := none
    restart_attempts := 0
    last_crash_time := some 9
    start_time := some 0
    logs := [] }

/-- A stop environment in which the OS kill sequence completes without
raising. -/
def envKillOk : StopEnv := ⟨none, [], none⟩

/-- A stop environment in which the OS kill sequence raises (the taskkill
timeout of the Windows branch). -/
def envKillFail : StopEnv := ⟨none, [], some "taskkill timeout"⟩

/-- The launcher state reached from a fresh start (pid 100) by `n`
unexpected-exit rounds, every automatic respawn succeeding with pids 101,
102, ... under `cfgAutoRestart`. -/
def afterNCrashes (n : Nat) : LState :=
  (List.range n).foldl
    (fun s i => crash_cycle "py" noFile cfgAutoRestart 1 (.ok (101 + i)) (10 + i) s)
    (start_fuxkcomfy "py" noFile cfgAutoRestart (.ok 100) 0 initState).1

/-- Sample sink contents for log-query checks. -/
def wLogs : List LogEntry :=
  [⟨"booting", .info⟩, ⟨"load failed", .error⟩, ⟨"low vram warning", .warning⟩,
   ⟨"server error 500", .error⟩, ⟨"model ready", .success⟩]

/-- Sample log entries for capacity checks. -/
def wEntryA : LogEntry := ⟨"oldest", .info⟩

/-- A second sample log entry. -/
def wEntryB : LogEntry := ⟨"newest", .success⟩

/-- The sink-level operations of the log component: a bounded append or the
clear of `clear_logs` (whose follow-up synthetic entry is a further
append). -/
inductive LogOp where
  | append (e : LogEntry)
  | clear

/-- Apply one sink operation. -/
def applyLogOp (xs : List LogEntry)  : LogOp → List LogEntry
  | .append e => dequeAppend logCapacity xs e
  | .clear => []

/-- Length after a bounded append: one more entry, clipped at capacity. -/
theorem dequeAppend_length (cap : Nat) (xs : List LogEntry) (x : LogEntry) :
    (dequeAppend cap xs x).length = min (xs.length + 1) cap := by
  simp [dequeAppend]
  omega

/-- A bounded append with positive capacity drops old entries from the front
and puts the new entry at the back. -/
theorem dequeAppend_eq_drop (cap : Nat) (hc : 1 ≤ cap) (xs : List LogEntry)
    (x : LogEntry) :
    dequeAppend cap xs x = xs.drop (xs.length + 1 - cap) ++ [x] := by
  simp only [dequeAppend, List.length_append, List.length_cons, List.length_nil,
    Nat.zero_add]
  rw [List.drop_append_of_le_length (by omega)]

/-- A bounded append with positive capacity keeps the new entry last. -/
theorem dequeAppend_getLast (cap : Nat) (hc : 1 ≤ cap) (xs : List LogEntry)
    (x : LogEntry) :
    (dequeAppend cap xs x).getLast? = some x := by
  rw [dequeAppend_eq_drop cap hc]
  exact List.getLast?_concat _

/-- The sink capacity is positive. -/
theorem capPos : 1 ≤ logCapacity := by norm_num [logCapacity]

/-- The sink after a log_message call is the bounded append of the new
entry. -/
theorem log_message_logs (s : LState) (m : String) (lvl : Level) :
    (log_message s m lvl).logs = dequeAppend logCapacity s.logs ⟨m, lvl⟩ := rfl

/-- After a log_message call the new entry is the last one in the sink. -/
theorem log_message_getLast (s : LState) (m : String) (lvl : Level) :
    (log_message s m lvl).logs.getLast? = some ⟨m, lvl⟩ := by
  rw [log_message_logs, dequeAppend_eq_drop logCapacity capPos]
  exact List.getLast?_concat _

/-- Claim C6: after every sequence of append and clear operations the log
sink holds at most 2000 entries, and an append on a sink at capacity evicts
exactly the oldest entry, keeping the surviving entries in their relative
order followed by the new entry. -/
theorem log_sink_bounded_fifo :
    (∀ ops : List LogOp, (ops.foldl applyLogOp []).length ≤ logCapacity) ∧
    (∀ (xs : List LogEntry) (e : LogEntry), xs.length = logCapacity →
      dequeAppend logCapacity xs e = xs.tail ++ [e]) := by
  constructor
  · have key : ∀ (ops : List LogOp) (xs : List LogEntry),
        xs.length ≤ logCapacity → (ops.foldl applyLogOp xs).length ≤ logCapacity := by
      intro ops
      induction ops with
      | nil => intro xs h; exact h
      | cons op rest ih =>
        intro xs h
        apply ih
        cases op with
        | append e =>
          simp only [applyLogOp, dequeAppend_length]
          omega
        | clear => simp [applyLogOp]
    intro ops
    exact key ops [] (by simp)
  · intro xs e h
    rw [dequeAppend_eq_drop logCapacity (by norm_num [logCapacity]) xs e, h]
    have h1 : logCapacity + 1 - logCapacity = 1 := by omega
    rw [h1, List.drop_one]

/-- Witness for C6 at a sink filled to its capacity of 2000 entries. -/
theorem log_sink_bounded_fifo_witness :
    (List.replicate logCapacity wEntryA).length = logCapacity ∧
    dequeAppend logCapacity (List.replicate logCapacity wEntryA) wEntryB
      = (List.replicate logCapacity wEntryA).tail ++ [wEntryB] :=
  ⟨List.length_replicate logCapacity wEntryA,
   log_sink_bounded_fifo.2 (List.replicate logCapacity wEntryA) wEntryB
     (List.length_replicate logCapacity wEntryA)⟩

/-- Claim C10: calling get_logs with limit 0 returns all matching entries in
chronological order — the Python slice [-0:] is the whole filtered list, so
truncation only happens for limit at least 1. -/
theorem get_logs_limit_zero_all (level_filter search : String)
    (logs : List LogEntry) :
    get_logs level_filter search 0 logs = logs.filter (logPred level_filter search) := by
  simp [get_logs, pySliceFrom]

/-- Counterexample to claim C7 as stated for every limit: with limit 0 the
query does not truncate to at most 0 entries — on a five-entry sink it
returns all five matches. -/
theorem get_logs_limit_zero_cex :
    get_logs "all" "" 0 wLogs = wLogs ∧ ¬(wLogs.length ≤ 0) := by
  constructor
  · decide
  · decide

/-- Claim C7 (amended to limit at least 1): get_logs returns exactly the
suffix of the matching entries of length at most limit — every returned
entry matches the severity filter and search string, at most limit entries
are returned, and they appear in chronological order (a sublist of the
filtered sink). -/
theorem get_logs_query_amended (level_filter search : String) (limit : Int)
    (hl : 1 ≤ limit) (logs : List LogEntry) :
    get_logs level_filter search limit logs =
      (logs.filter (logPred level_filter search)).drop
        ((logs.filter (logPred level_filter search)).length - limit.toNat) ∧
    (∀ e ∈ get_logs level_filter search limit logs,
      logPred level_filter search e = true) ∧
    (get_logs level_filter search limit logs).length ≤ limit.toNat ∧
    (get_logs level_filter search limit logs).Sublist
      (logs.filter (logPred level_filter search)) := by
  have hmain : get_logs level_filter search limit logs =
      (logs.filter (logPred level_filter search)).drop
        ((logs.filter (logPred level_filter search)).length - limit.toNat) := by
    simp only [get_logs, pySliceFrom]
    rw [if_neg (by omega), neg_neg]
  refine ⟨hmain, ?_, ?_, ?_⟩
  · intro e he
    rw [hmain] at he
    exact (List.mem_filter.mp (List.mem_of_mem_drop he)).2
  · rw [hmain, List.length_drop]
    omega
  · rw [hmain]
    exact List.drop_sublist _ _

/-- Witness for C7 at the error-only query with limit 10 on the sample
sink. -/
theorem get_logs_query_amended_witness :
    (1 : Int) ≤ 10 ∧
    get_logs "error" "" 10 wLogs =
      (wLogs.filter (logPred "error" "")).drop
        ((wLogs.filter (logPred "error" "")).length - (10 : Int).toNat) :=
  ⟨by norm_num, (get_logs_query_amended "error" "" 10 (by norm_num) wLogs).1⟩

/-- Claim C5: the severity of an output line is decided by case-insensitive
keyword containment with first-match-wins in the order error-group,
warning-group, success-group, else info; in particular the four sample lines
classify as warning, success, error and info respectively. -/
theorem classify_line_spec :
    classify_line "Warning: deprecated" = Level.warning ∧
    classify_line "Model ready to serve" = Level.success ∧
    classify_line "Traceback (most recent call last): Exception" = Level.error ∧
    classify_line "loading checkpoints" = Level.info ∧
    (∀ line : String,
      (classify_line line = Level.error ↔ errKw line = true) ∧
      (classify_line line = Level.warning ↔ (!errKw line && warnKw line) = true) ∧
      (classify_line line = Level.success ↔
        (!errKw line && !warnKw line && succKw line) = true) ∧
      (classify_line line = Level.info ↔
        (!errKw line && !warnKw line && !succKw line) = true)) := by
  refine ⟨by decide, by decide, by decide, by decide, ?_⟩
  intro line
  cases he : (strContains (pyLower line) "error" || strContains (pyLower line) "exception"
      || strContains (pyLower line) "failed") <;>
    cases hw : (strContains (pyLower line) "warning" || strContains (pyLower line) "warn") <;>
      cases hs : (strContains (pyLower line) "success" || strContains (pyLower line) "ready"
          || strContains (pyLower line) "started") <;>
        simp [classify_line, errKw, warnKw, succKw, he, hw, hs]

/-- One pass of the line reader changes nothing besides the sink. -/
theorem read_output_line_fields (s : LState) (line : String) :
    (read_output_line s line).last_crash_time = s.last_crash_time ∧
    (read_output_line s line).process = s.process := by
  unfold read_output_line log_message
  split <;> exact ⟨rfl, rfl⟩

/-- Reading any sequence of lines changes nothing besides the sink. -/
theorem read_output_lines_fields (lines : List String) (s : LState) :
    (lines.foldl read_output_line s).last_crash_time = s.last_crash_time ∧
    (lines.foldl read_output_line s).process = s.process := by
  induction lines generalizing s with
  | nil => exact ⟨rfl, rfl⟩
  | cons l ls ih =>
    simp only [List.foldl_cons]
    obtain ⟨h1, h2⟩ := ih (read_output_line s l)
    obtain ⟨g1, g2⟩ := read_output_line_fields s l
    exact ⟨h1.trans g1, h2.trans g2⟩

/-- Claim C8: when the output stream ends, the reader drops the running flag
and clears the monitor pid; the terminal log entry carries success severity
and the normal-exit text on exit code 0, else error severity and the
error-code text; the last-crash timestamp is recorded exactly on non-zero
exit. -/
theorem read_output_exit_spec (lines : List String) (exit_code : Int)
    (now : Nat) (s : LState) :
    (read_output lines exit_code now s).is_running = false ∧
    (read_output lines exit_code now s).monitor_pid = none ∧
    (read_output lines exit_code now s).logs.getLast? = some
      ⟨if exit_code = 0 then "Process exited normally (code: " ++ toString exit_code ++ ")"
        else "Process exited with error code: " ++ toString exit_code,
       if exit_code = 0 then Level.success else Level.error⟩ ∧
    (read_output lines exit_code now s).last_crash_time =
      (if exit_code = 0 then s.last_crash_time else some now) := by
  obtain ⟨hcrash, -⟩ := read_output_lines_fields lines s
  unfold read_output read_output_exit
  by_cases h : exit_code = 0
  · rw [if_pos h, if_pos h, if_pos h, if_pos h]
    exact ⟨rfl, rfl, log_message_getLast _ _ _, hcrash⟩
  · rw [if_neg h, if_neg h, if_neg h, if_neg h]
    exact ⟨rfl, rfl, log_message_getLast _ _ _, rfl⟩

/-- Claim C4: a second start while the running flag is set returns the
already-running failure (success false, no pid) and leaves the entire
supervisor state — including the stored handle — unchanged. -/
theorem start_already_running (sysExe : String) (isFile : String → Bool)
    (cfg : Config) (spawn : Except String Nat) (now : Nat) (s : LState)
    (h : s.is_running = true) :
    start_fuxkcomfy sysExe isFile cfg spawn now s =
      (s, ⟨false, "Process already running", none⟩) := by
  unfold start_fuxkcomfy
  rw [h]
  simp

/-- Witness for C4 on a live state with pid 42. -/
theorem start_already_running_witness :
    runningState.is_running = true ∧
    start_fuxkcomfy "py" noFile default_config (.ok 99) 10 runningState =
      (runningState, ⟨false, "Process already running", none⟩) :=
  ⟨rfl, start_already_running "py" noFile default_config (.ok 99) 10 runningState rfl⟩

/-- Membership in one conditional flag append. -/
theorem mem_flagTok (b : Bool) (tok t : String) :
    t ∈ flagTok b tok ↔ b = true ∧ t = tok := by
  cases b <;> simp [flagTok]

/-- Membership in the boolean flag block is witnessed by a flag pair whose
config value is on and whose token is the member. -/
theorem mem_boolSection_iff (cfg : Config) (t : String) :
    t ∈ boolSection cfg ↔ ∃ p ∈ flagPairs cfg, p.1 = true ∧ t = p.2 := by
  constructor
  · intro h
    rw [boolSection, List.mem_flatten] at h
    obtain ⟨l, hl, htl⟩ := h
    rw [List.mem_map] at hl
    obtain ⟨p, hp, rfl⟩ := hl
    rw [mem_flagTok] at htl
    exact ⟨p, hp, htl.1, htl.2⟩
  · rintro ⟨p, hp, hp1, rfl⟩
    rw [boolSection, List.mem_flatten]
    exact ⟨flagTok p.1 p.2, List.mem_map_of_mem _ hp,
      (mem_flagTok _ _ _).mpr ⟨hp1, rfl⟩⟩

/-- A token of the built command comes from the boolean flag block or from
the remaining (interpreter, platform, port, listen, value-bearing)
tokens. -/
theorem mem_build_command_iff (sysExe : String) (isFile : String → Bool)
    (cfg : Config) (t : String) :
    t ∈ build_command sysExe isFile cfg ↔
      t ∈ nonFlagTokens sysExe isFile cfg ∨ t ∈ boolSection cfg := by
  simp only [build_command, nonFlagTokens, List.mem_append]
  tauto

/-- The 28 flag tokens are pairwise distinct. -/
theorem flagPairs_snd_nodup (cfg : Config) :
    ((flagPairs cfg).map Prod.snd).Nodup := by
  have h : (flagPairs cfg).map Prod.snd =
      ["--auto-launch", "--cpu", "--disable-gpu-optimization", "--lowvram",
       "--highvram", "--normalvram", "--novram", "--fp16-vae", "--fp32-vae",
       "--bf16-unet", "--fp16-unet", "--fp8_e4m3fn-unet", "--fp8_e5m2-unet",
       "--disable-smart-memory", "--deterministic", "--dont-upcast-attention",
       "--force-upcast-attention", "--disable-xformers",
       "--use-split-cross-attention", "--use-quad-cross-attention",
       "--use-sage-attention", "--use-flash-attention", "--directml",
       "--gpu-only", "--cpu-vae", "--async-offload", "--disable-mmap",
       "--force-channels-last"] := rfl
  rw [h]
  decide

/-- Counterexample to claim C3 as stated over all boolean options of the
default configuration: selecting the PyTorch cross-attention backend never
puts its token into the built command — build_command does not consult
use_pytorch_cross_attention. -/
theorem build_command_pytorch_attention_cex :
    cfgPytorchAttn.use_pytorch_cross_attention = true ∧
    "--use-pytorch-cross-attention" ∉ build_command "py" noFile cfgPytorchAttn := by
  constructor
  · rfl
  · decide

/-- Claim C3 (amended to the 28 flags build_command actually handles,
excluding the ignored use_pytorch_cross_attention): for a flag pair of the
table and a token that does not also occur among the non-flag tokens
(interpreter, platform flag, port/listen values, value-bearing options,
extra arguments), the token appears in the built command exactly when the
config value is true; the inverted gpu_opt pair carries its negation. -/
theorem build_command_flag_iff_amended (sysExe : String)
    (isFile : String → Bool) (cfg : Config) (v : Bool) (t : String)
    (hmem : (v, t) ∈ flagPairs cfg)
    (hclean : t ∉ nonFlagTokens sysExe isFile cfg) :
    t ∈ build_command sysExe isFile cfg ↔ v = true := by
  rw [mem_build_command_iff]
  constructor
  · rintro (hin | hin)
    · exact absurd hin hclean
    · rw [mem_boolSection_iff] at hin
      obtain ⟨p, hp, hp1, hpt⟩ := hin
      have hpv : p = (v, t) :=
        List.inj_on_of_nodup_map (flagPairs_snd_nodup cfg) hp hmem hpt.symm
      rw [hpv] at hp1
      exact hp1
  · intro hv
    refine Or.inr ?_
    rw [mem_boolSection_iff]
    exact ⟨(v, t), hmem, hv, rfl⟩

/-- Witness for C3 (amended) at the DirectML flag on the otherwise default
configuration. -/
theorem build_command_flag_iff_amended_witness :
    ((true, "--directml") ∈ flagPairs cfgDirectml) ∧
    ("--directml" ∉ nonFlagTokens "py" noFile cfgDirectml) ∧
    "--directml" ∈ build_command "py" noFile cfgDirectml :=
  ⟨by decide, by decide,
   (build_command_flag_iff_amended "py" noFile cfgDirectml true "--directml"
     (by decide) (by decide)).mpr rfl⟩

/-- Counterexample to claim C9 as stated: build_command is not free of state
effects — already on the fresh launcher it appends an interpreter log entry
to the sink. -/
theorem build_command_mutates_logs_cex :
    (build_command_state "py" noFile default_config initState).1.logs ≠
      initState.logs := by
  have h : (build_command_state "py" noFile default_config initState).1.logs
      = dequeAppend logCapacity initState.logs
          (interpCmd "py" noFile default_config).2 := rfl
  rw [h, dequeAppend_eq_drop logCapacity capPos]
  simp [initState]

/-- Claim C9 (amended): the argument vector build_command returns is a
deterministic function of the configuration alone — independent of the
launcher state, with the flag order fixed — but each call also appends
exactly one info-severity log entry (naming the chosen interpreter) to the
sink, leaving every other state field unchanged. -/
theorem build_command_deterministic_amended (sysExe : String)
    (isFile : String → Bool) (cfg : Config) (s1 s2 : LState) :
    (build_command_state sysExe isFile cfg s1).2 =
      (build_command_state sysExe isFile cfg s2).2 ∧
    (build_command_state sysExe isFile cfg s1).2 = build_command sysExe isFile cfg ∧
    (build_command_state sysExe isFile cfg s1).1 =
      { s1 with logs := dequeAppend logCapacity s1.logs (interpCmd sysExe isFile cfg).2 } ∧
    (interpCmd sysExe isFile cfg).2.level = Level.info := by
  refine ⟨rfl, rfl, rfl, ?_⟩
  unfold interpCmd
  split <;> rfl

/-- The kill tail of stop resolves the state regardless of outcome: running
flag off, monitor pid and start time cleared, handle and counter untouched;
the call succeeds exactly when the kill block does not raise. -/
theorem stop_kill_spec (env : StopEnv) (pid : Nat) (s : LState) :
    (stop_kill env pid s).1.is_running = false ∧
    (stop_kill env pid s).1.monitor_pid = none ∧
    (stop_kill env pid s).1.start_time = none ∧
    (stop_kill env pid s).1.process = s.process ∧
    (stop_kill env pid s).1.restart_attempts = s.restart_attempts ∧
    (stop_kill env pid s).2.success = env.killOutcome.isNone := by
  rcases h : env.killOutcome with _ | e <;>
    simp [stop_kill, h, log_message, appendLogs]

/-- Counterexample to claim C2 as stated: a stop of a live process — a
clean one as well as one whose kill block raises — retains the stored Popen
handle, so the status route keeps reporting the old pid after stop
returns. -/
theorem stop_retains_handle_cex :
    (stop_fuxkcomfy false envKillOk runningState).2.success = true ∧
    (stop_fuxkcomfy false envKillOk runningState).1.is_running = false ∧
    (stop_fuxkcomfy false envKillOk runningState).1.process = some 42 ∧
    (status (stop_fuxkcomfy false envKillOk runningState).1).pid = some 42 ∧
    (stop_fuxkcomfy false envKillFail runningState).2.success = false ∧
    (stop_fuxkcomfy false envKillFail runningState).1.process = some 42 ∧
    (status (stop_fuxkcomfy false envKillFail runningState).1).pid = some 42 := by
  exact ⟨rfl, rfl, rfl, rfl, rfl, rfl, rfl⟩

/-- Claim C2 (amended): every stop path returns with the running flag false
and the monitor pid cleared (the not-running early returns leave them
already so).  On a stop of a live process the kill path — whether the OS
kill block completes or raises — also clears the start time and reports
success exactly when no exception occurred, but the stored Popen handle is
retained, not cleared; it is only dropped on the reconciliation path that
finds the process dead. -/
theorem stop_clears_flags_amended (force : Bool) (env : StopEnv) (s : LState)
    (hinv : s.process = none → s.is_running = false) :
    (stop_fuxkcomfy force env s).1.is_running = false ∧
    (stop_fuxkcomfy force env s).1.monitor_pid = none ∧
    (s.is_running = true →
      (stop_fuxkcomfy force env s).1.process = s.process ∧
      (stop_fuxkcomfy force env s).1.start_time = none ∧
      (stop_fuxkcomfy force env s).2.success = env.killOutcome.isNone) := by
  rcases hp : s.process with _ | pid
  · rcases hm : s.monitor_pid with _ | mpid
    · have heq : stop_fuxkcomfy force env s =
          (s, ⟨false, "Process not running", none⟩) := by
        simp [stop_fuxkcomfy, hp, hm]
      rw [heq]
      exact ⟨hinv hp, hm,
        fun hrun => absurd ((hinv hp).symm.trans hrun) (by simp)⟩
    · have heq : stop_fuxkcomfy force env s =
          stop_kill env mpid (log_message s
            ("Found orphaned PID " ++ toString mpid ++ ", attempting cleanup...")
            .warning) := by
        simp [stop_fuxkcomfy, hp, hm]
      rw [heq]
      obtain ⟨a1, a2, a3, a4, a5, a6⟩ := stop_kill_spec env mpid _
      exact ⟨a1, a2,
        fun hrun => absurd ((hinv hp).symm.trans hrun) (by simp)⟩
  · by_cases hr : s.is_running = true
    · have heq : stop_fuxkcomfy force env s = stop_kill env pid s := by
        simp [stop_fuxkcomfy, hp, hr]
      rw [heq]
      obtain ⟨a1, a2, a3, a4, a5, a6⟩ := stop_kill_spec env pid s
      exact ⟨a1, a2, fun hrun => ⟨a4.trans hp, a3, a6⟩⟩
    · rw [Bool.not_eq_true] at hr
      rcases ho : env.osProcRunning with _ | b
      · refine ⟨?_, ?_, fun hrun => absurd (hr.symm.trans hrun) (by simp)⟩ <;>
          simp [stop_fuxkcomfy, hp, hr, ho]
      · cases b
        · refine ⟨?_, ?_, fun hrun => absurd (hr.symm.trans hrun) (by simp)⟩ <;>
            simp [stop_fuxkcomfy, hp, hr, ho]
        · have heq : stop_fuxkcomfy force env s =
              stop_kill env pid
                { log_message (log_message s
                    "Process object exists but is_running=False, checking actual status..."
                    .warning)
                  ("Process " ++ toString pid ++ " is actually running, correcting state...")
                  .info with is_running := true } := by
            simp [stop_fuxkcomfy, hp, hr, ho]
          rw [heq]
          obtain ⟨a1, a2, a3, a4, a5, a6⟩ := stop_kill_spec env pid _
          exact ⟨a1, a2, fun hrun => absurd (hr.symm.trans hrun) (by simp)⟩

/-- Witness for C2 (amended) on a live pid-42 state whose kill block
raises: the handle is retained and the start time cleared even on the
failure path, and the result reports the failure. -/
theorem stop_clears_flags_amended_witness :
    (runningState.process = none → runningState.is_running = false) ∧
    runningState.is_running = true ∧
    ((stop_fuxkcomfy false envKillFail runningState).1.process = runningState.process ∧
      (stop_fuxkcomfy false envKillFail runningState).1.start_time = none ∧
      (stop_fuxkcomfy false envKillFail runningState).2.success =
        envKillFail.killOutcome.isNone) :=
  ⟨by simp [runningState], rfl,
   (stop_clears_flags_amended false envKillFail runningState
     (by simp [runningState])).2.2 rfl⟩

/-- A start call either keeps the restart counter (already-running rejection
or spawn failure) or resets it to zero (successful spawn). -/
theorem start_restart_attempts (sysExe : String) (isFile : String → Bool)
    (cfg : Config) (spawn : Except String Nat) (now : Nat) (s : LState) :
    (start_fuxkcomfy sysExe isFile cfg spawn now s).1.restart_attempts =
      s.restart_attempts ∨
    (start_fuxkcomfy sysExe isFile cfg spawn now s).1.restart_attempts = 0 := by
  cases h : s.is_running
  · cases spawn with
    | error e =>
      left
      simp [start_fuxkcomfy, h, log_message, build_command_state]
    | ok pid =>
      right
      simp [start_fuxkcomfy, h, log_message, build_command_state]
  · left
    simp [start_fuxkcomfy, h]

/-- A start from a counter at most the maximum stays at most the maximum. -/
theorem start_attempts_le (sysExe : String) (isFile : String → Bool)
    (cfg : Config) (spawn : Except String Nat) (now : Nat) (s : LState)
    (m : Nat) (h : s.restart_attempts ≤ m) :
    (start_fuxkcomfy sysExe isFile cfg spawn now s).1.restart_attempts ≤ m := by
  rcases start_restart_attempts sysExe isFile cfg spawn now s with h1 | h1 <;> rw [h1]
  · exact h
  · exact Nat.zero_le m

/-- A start from a non-running state with a successful spawn stores the new
pid, raises the flag, and resets the counter. -/
theorem start_success_fields (sysExe : String) (isFile : String → Bool)
    (cfg : Config) (pid : Nat) (now : Nat) (s : LState)
    (h : s.is_running = false) :
    (start_fuxkcomfy sysExe isFile cfg (.ok pid) now s).1.is_running = true ∧
    (start_fuxkcomfy sysExe isFile cfg (.ok pid) now s).1.process = some pid ∧
    (start_fuxkcomfy sysExe isFile cfg (.ok pid) now s).1.restart_attempts = 0 ∧
    (start_fuxkcomfy sysExe isFile cfg (.ok pid) now s).1.monitor_pid = some pid ∧
    (start_fuxkcomfy sysExe isFile cfg (.ok pid) now s).2 =
      ⟨true, "Process started successfully", some pid⟩ := by
  simp [start_fuxkcomfy, h, log_message, build_command_state]

/-- The exit handler of the output reader never touches the counter and
always drops the flag, keeping the handle. -/
theorem read_output_exit_fields (e : Int) (n : Nat) (s : LState) :
    (read_output_exit e n s).restart_attempts = s.restart_attempts ∧
    (read_output_exit e n s).is_running = false ∧
    (read_output_exit e n s).process = s.process := by
  unfold read_output_exit
  split <;> exact ⟨rfl, rfl, rfl⟩

/-- A stop call never touches the restart counter. -/
theorem stop_restart_attempts (force : Bool) (env : StopEnv) (s : LState) :
    (stop_fuxkcomfy force env s).1.restart_attempts = s.restart_attempts := by
  rcases hp : s.process with _ | pid
  · rcases hm : s.monitor_pid with _ | mpid
    · simp [stop_fuxkcomfy, hp, hm]
    · have heq : stop_fuxkcomfy force env s =
          stop_kill env mpid (log_message s
            ("Found orphaned PID " ++ toString mpid ++ ", attempting cleanup...")
            .warning) := by
        simp [stop_fuxkcomfy, hp, hm]
      rw [heq]
      exact (stop_kill_spec env mpid _).2.2.2.2.1
  · by_cases hr : s.is_running = true
    · have heq : stop_fuxkcomfy force env s = stop_kill env pid s := by
        simp [stop_fuxkcomfy, hp, hr]
      rw [heq]
      exact (stop_kill_spec env pid s).2.2.2.2.1
    · rw [Bool.not_eq_true] at hr
      rcases ho : env.osProcRunning with _ | b
      · simp [stop_fuxkcomfy, hp, hr, ho, log_message]
      · cases b
        · simp [stop_fuxkcomfy, hp, hr, ho, log_message]
        · have heq : stop_fuxkcomfy force env s =
              stop_kill env pid
                { log_message (log_message s
                    "Process object exists but is_running=False, checking actual status..."
                    .warning)
                  ("Process " ++ toString pid ++ " is actually running, correcting state...")
                  .info with is_running := true } := by
            simp [stop_fuxkcomfy, hp, hr, ho]
          rw [heq]
          exact (stop_kill_spec env pid _).2.2.2.2.1

/-- The crash handler keeps the counter at or below the configured
maximum. -/
theorem monitor_detect_attempts_le (sysExe : String) (isFile : String → Bool)
    (cfg : Config) (spawn : Except String Nat) (now : Nat) (s : LState)
    (h : s.restart_attempts ≤ cfg.max_restart_attempts) :
    (monitor_detect sysExe isFile cfg spawn now s).restart_attempts ≤
      cfg.max_restart_attempts := by
  unfold monitor_detect
  by_cases ha : cfg.auto_restart = true
  · rw [if_pos ha]
    by_cases hlt : s.restart_attempts < cfg.max_restart_attempts
    · rw [if_pos hlt]
      exact start_attempts_le sysExe isFile cfg spawn now _ _ hlt
    · rw [if_neg hlt]
      exact h
  · rw [if_neg ha]
    exact h

/-- One event keeps the counter at or below the maximum. -/
theorem step_attempts_le (sysExe : String) (isFile : String → Bool)
    (cfg : Config) (s : LState) (e : Ev)
    (h : s.restart_attempts ≤ cfg.max_restart_attempts) :
    (step sysExe isFile cfg s e).restart_attempts ≤ cfg.max_restart_attempts := by
  cases e with
  | startEv spawn now =>
    exact start_attempts_le sysExe isFile cfg spawn now s _ h
  | crashEv code spawn now =>
    unfold step crash_cycle
    apply monitor_detect_attempts_le
    rw [(read_output_exit_fields code now s).1]
    exact h
  | stopEv force env =>
    unfold step
    rw [stop_restart_attempts]
    exact h

/-- Any event sequence keeps the counter at or below the maximum. -/
theorem run_attempts_le (sysExe : String) (isFile : String → Bool)
    (cfg : Config) (s : LState) (evs : List Ev)
    (h : s.restart_attempts ≤ cfg.max_restart_attempts) :
    (run sysExe isFile cfg s evs).restart_attempts ≤ cfg.max_restart_attempts := by
  induction evs generalizing s with
  | nil => exact h
  | cons e es ih =>
    simp only [run, List.foldl_cons]
    exact ih _ (step_attempts_le sysExe isFile cfg s e h)

/-- Counterexample to claim C1 as stated: with auto-restart on and the
maximum at 3, three unexpected-exit rounds leave the counter at 0 — not 3 —
because each successful start resets it, and a fourth unexpected exit still
restarts (new pid 104, running flag up) instead of giving up. -/
theorem monitor_restart_unbounded_cex :
    cfgAutoRestart.auto_restart = true ∧
    cfgAutoRestart.max_restart_attempts = 3 ∧
    (afterNCrashes 3).restart_attempts = 0 ∧
    (afterNCrashes 4).is_running = true ∧
    (afterNCrashes 4).process = some 104 ∧
    (afterNCrashes 4).restart_attempts = 0 := by
  refine ⟨rfl, rfl, ?_, ?_, ?_, ?_⟩ <;> decide

/-- Claim C1 (amended): a detected exit with auto-restart on and the counter
below the maximum increments the counter and restarts — but the successful
start resets the counter to 0, so restarts do not accumulate it and are not
bounded by the maximum; a detected exit with the counter at or above the
maximum does not restart, leaves the flag down and the counter unchanged,
and logs the giving-up entry; along every event sequence the counter stays
at or below the maximum. -/
theorem monitor_restart_amended (sysExe : String) (isFile : String → Bool)
    (cfg : Config) :
    (∀ (pid : Nat) (now : Nat) (s : LState),
      cfg.auto_restart = true →
      s.restart_attempts < cfg.max_restart_attempts →
      s.is_running = false →
      (monitor_detect sysExe isFile cfg (.ok pid) now s).is_running = true ∧
      (monitor_detect sysExe isFile cfg (.ok pid) now s).process = some pid ∧
      (monitor_detect sysExe isFile cfg (.ok pid) now s).restart_attempts = 0) ∧
    (∀ (spawn : Except String Nat) (now : Nat) (s : LState),
      cfg.auto_restart = true →
      cfg.max_restart_attempts ≤ s.restart_attempts →
      (monitor_detect sysExe isFile cfg spawn now s).is_running = false ∧
      (monitor_detect sysExe isFile cfg spawn now s).restart_attempts =
        s.restart_attempts ∧
      (monitor_detect sysExe isFile cfg spawn now s).logs.getLast? = some
        ⟨"Max restart attempts (" ++ toString cfg.max_restart_attempts
          ++ ") reached, giving up", Level.error⟩) ∧
    (∀ (s : LState) (evs : List Ev),
      s.restart_attempts ≤ cfg.max_restart_attempts →
      (run sysExe isFile cfg s evs).restart_attempts ≤
        cfg.max_restart_attempts) := by
  refine ⟨?_, ?_, ?_⟩
  · intro pid now s hauto hlt hrun
    unfold monitor_detect
    rw [if_pos hauto, if_pos hlt]
    obtain ⟨b1, b2, b3, b4, b5⟩ := start_success_fields sysExe isFile cfg pid now
      (log_message { s with restart_attempts := s.restart_attempts + 1 }
        ("Auto-restart attempt " ++ toString (s.restart_attempts + 1) ++ "/"
          ++ toString cfg.max_restart_attempts) .warning) hrun
    exact ⟨b1, b2, b3⟩
  · intro spawn now s hauto hge
    unfold monitor_detect
    rw [if_pos hauto, if_neg (by omega)]
    exact ⟨rfl, rfl, log_message_getLast _ _ _⟩
  · intro s evs h
    exact run_attempts_le sysExe isFile cfg s evs h

/-- Witness for C1 (amended) on a freshly crashed state under the
auto-restart configuration. -/
theorem monitor_restart_amended_witness :
    cfgAutoRestart.auto_restart = true ∧
    crashedState.restart_attempts < cfgAutoRestart.max_restart_attempts ∧
    crashedState.is_running = false ∧
    (monitor_detect "py" noFile cfgAutoRestart (.ok 7) 0 crashedState).is_running
      = true :=
  ⟨rfl, by decide, rfl,
   ((monitor_restart_amended "py" noFile cfgAutoRestart).1 7 0 crashedState
     rfl (by decide) rfl).1⟩

end FLauncher
